import Mathlib

/-!
# Verification of the Sana transformer model definition

Shallow embedding of `src/helpers/models/sana/transformer.py`
(`GLUMBConv`, `SanaTransformerBlock`, `SanaTransformer2DModel`) and proofs
about it.  Tensors are embedded as total functions from `Nat` indices to `ℚ`
with shapes carried separately; Python attribute absence is embedded as
`Option`/flags; fallible operations return `Except String`.
-/

/-! ## Attention-mask conversion (`SanaTransformer2DModel.forward`, lines 414-427)

A mask tensor is embedded as a shape together with a multi-index valuation. -/

structure PTensor where
  shape : List Nat
  val : List Nat → ℚ

/-- Embedding of the `attention_mask` conversion in
`SanaTransformer2DModel.forward`: a 2-dimensional mask `[batch, key_tokens]`
is turned into the additive bias `(1 - mask) * -10000.0` and given a
singleton query dimension by `unsqueeze(1)`; any other mask is left as is. -/
def convert_attention_mask (mask : Option PTensor) : Option PTensor :=
  match mask with
  | none => none
  | some t =>
    if t.shape.length = 2 then
      some { shape := [t.shape.getD 0 0, 1, t.shape.getD 1 0],
             val := fun ix =>
               (1 - t.val [ix.getD 0 0, ix.getD 2 0]) * (-10000) }
    else
      some t

/-- Embedding of the `encoder_attention_mask` conversion in
`SanaTransformer2DModel.forward` (the second, textually separate branch,
lines 423-427). -/
def convert_encoder_attention_mask (mask : Option PTensor) : Option PTensor :=
  match mask with
  | none => none
  | some t =>
    if t.shape.length = 2 then
      some { shape := [t.shape.getD 0 0, 1, t.shape.getD 1 0],
             val := fun ix =>
               (1 - t.val [ix.getD 0 0, ix.getD 2 0]) * (-10000) }
    else
      some t

/-- The mask-preparation prologue of `SanaTransformer2DModel.forward`:
both masks are converted (lines 414-427) before any transformer block,
hence before either attention, is invoked. -/
def prepare_attention_masks (attention_mask encoder_attention_mask : Option PTensor) :
    Option PTensor × Option PTensor :=
  (convert_attention_mask attention_mask,
   convert_encoder_attention_mask encoder_attention_mask)

/-! ## Modulation chunks (`SanaTransformerBlock.forward`, lines 162-165)

`scale_shift_table[None] + timestep.reshape(batch_size, 6, -1)` followed by
`.chunk(6, dim=1)`.  A rank-3 tensor `[batch, 6, dim]` is embedded as a
curried valuation. -/

/-- `timestep.reshape(batch_size, 6, -1)` where the per-batch row has
`6 * d` entries: entry `(b, i, j)` is row entry `i * d + j`. -/
def reshaped_timestep (d : Nat) (ts : Nat → Nat → ℚ) : Nat → Nat → Nat → ℚ :=
  fun b i j => ts b (i * d + j)

/-- `self.scale_shift_table[None] + timestep.reshape(batch_size, 6, -1)`:
the learned `[6, dim]` table broadcast over the batch dimension, added to the
reshaped conditioning tensor. -/
def premod_tensor (d : Nat) (table : Nat → Nat → ℚ) (ts : Nat → Nat → ℚ) :
    Nat → Nat → Nat → ℚ :=
  fun b i j => table i j + reshaped_timestep d ts b i j

/-- The `k`-th of the six size-1 chunks of `.chunk(6, dim=1)` applied to a
`[batch, 6, dim]` tensor: a `[batch, 1, dim]` tensor. -/
def chunk6 (t : Nat → Nat → Nat → ℚ) (k : Nat) : Nat → Nat → Nat → ℚ :=
  fun b _ j => t b k j

def shift_msa (d : Nat) (table ts : Nat → Nat → ℚ) := chunk6 (premod_tensor d table ts) 0
def scale_msa (d : Nat) (table ts : Nat → Nat → ℚ) := chunk6 (premod_tensor d table ts) 1
def gate_msa (d : Nat) (table ts : Nat → Nat → ℚ) := chunk6 (premod_tensor d table ts) 2
def shift_mlp (d : Nat) (table ts : Nat → Nat → ℚ) := chunk6 (premod_tensor d table ts) 3
def scale_mlp (d : Nat) (table ts : Nat → Nat → ℚ) := chunk6 (premod_tensor d table ts) 4
def gate_mlp (d : Nat) (table ts : Nat → Nat → ℚ) := chunk6 (premod_tensor d table ts) 5

/-- Concatenation of six `[batch, 1, dim]` chunks back along dimension 1,
the inverse of `.chunk(6, dim=1)`. -/
def recombine6 (c0 c1 c2 c3 c4 c5 : Nat → Nat → Nat → ℚ) : Nat → Nat → Nat → ℚ :=
  fun b i j =>
    match i with
    | 0 => c0 b 0 j
    | 1 => c1 b 0 j
    | 2 => c2 b 0 j
    | 3 => c3 b 0 j
    | 4 => c4 b 0 j
    | _ => c5 b 0 j

/-! ## Configuration (`SanaTransformer2DModel.__init__`, lines 240-313) -/

structure SanaConfig where
  in_channels : Nat := 32
  out_channels : Option Nat := some 32
  num_attention_heads : Nat := 70
  attention_head_dim : Nat := 32
  num_layers : Nat := 20
  cross_attention_dim : Option Nat := some 2240
  caption_channels : Nat := 2304
  patch_size : Nat := 1
deriving DecidableEq, Repr

/-- `out_channels = out_channels or in_channels` (line 262): Python `or`
falls through to `in_channels` on any falsy value, i.e. `None` and `0`. -/
def resolved_out_channels (c : SanaConfig) : Nat :=
  match c.out_channels with
  | none => c.in_channels
  | some 0 => c.in_channels
  | some n => n

/-- `inner_dim = num_attention_heads * attention_head_dim` (line 263). -/
def sana_inner_dim (c : SanaConfig) : Nat :=
  c.num_attention_heads * c.attention_head_dim

/-- Output width of `self.proj_out = nn.Linear(inner_dim, patch_size *
patch_size * out_channels)` (line 310), with `out_channels` resolved. -/
def proj_out_features (c : SanaConfig) : Nat :=
  c.patch_size * c.patch_size * resolved_out_channels c

/-- Whether the blocks are built with cross-attention: `__init__` passes
`cross_attention_dim` through to each `SanaTransformerBlock`, whose
`norm2`/`attn2` attributes exist iff it is not `None` (lines 127-141). -/
def sana_has_cross (c : SanaConfig) : Bool :=
  c.cross_attention_dim.isSome

/-! ## Gradient checkpointing (`create_block_forward`, lines 450-464) -/

/-- Modelled from the spec: `torch.utils.checkpoint.checkpoint` trades
recomputation for memory; the value it returns is the wrapped function
applied to the inputs. -/
def checkpoint_apply {α β : Type} (f : α → β) (x : α) : β := f x

/-- The model-level state consulted by `create_block_forward`.  `timestep`
stands in for the conditioning tensor used (only) in the interval branch. -/
structure CkptState where
  gradient_checkpointing : Bool
  gradient_checkpointing_interval : Option Int
  timestep : Int
deriving DecidableEq, Repr

/-- Attribute state of one `SanaTransformerBlock`.  The class never defines
a `gradient_checkpointing` attribute, so `has_gc_attr` is `false` for the
blocks built by `__init__`. -/
structure BlockAttrs where
  has_gc_attr : Bool := false
  gc_value : Bool := false
deriving DecidableEq, Repr

/-- `_set_gradient_checkpointing` (lines 325-327): sets the attribute only
when `hasattr(module, "gradient_checkpointing")` holds. -/
def set_gradient_checkpointing (m : BlockAttrs) (value : Bool) : BlockAttrs :=
  if m.has_gc_attr then { m with gc_value := value } else m

/-- `create_block_forward` (lines 450-464): first the interval branch calls
`_set_gradient_checkpointing` on the block, then the returned callable is
the checkpoint wrapper iff `torch.is_grad_enabled() and
self.gradient_checkpointing` — the model-level flag, independent of the
interval.  Returns the updated block attributes, whether the block call is
checkpointed, and the callable. -/
def create_block_forward {α : Type} (s : CkptState) (grad_enabled : Bool)
    (battrs : BlockAttrs) (block : α → α) : BlockAttrs × Bool × (α → α) :=
  let i := s.gradient_checkpointing_interval.getD 0
  let battrs1 :=
    if s.gradient_checkpointing_interval.isSome ∧ 0 < i ∧
        s.gradient_checkpointing then
      set_gradient_checkpointing battrs (decide (s.timestep % i = 0))
    else battrs
  if grad_enabled ∧ s.gradient_checkpointing then
    (battrs1, true, fun x => checkpoint_apply block x)
  else
    (battrs1, false, block)

/-- The block loop of `SanaTransformer2DModel.forward` (lines 466-475),
abstracted over the hidden-state type and the blocks' functions. -/
def run_transformer_blocks {α : Type} (s : CkptState) (grad_enabled : Bool)
    (blocks : List (BlockAttrs × (α → α))) (x : α) : α :=
  blocks.foldl (fun h b => (create_block_forward s grad_enabled b.1 b.2).2.2 h) x

/-- For each block, whether its call goes through
`torch.utils.checkpoint.checkpoint`. -/
def block_checkpoint_flags (s : CkptState) (grad_enabled : Bool)
    (blocks : List BlockAttrs) : List Bool :=
  blocks.map (fun b => (create_block_forward (α := Unit) s grad_enabled b id).2.1)

/-! ## GLUMBConv (lines 37-90)

A spatial tensor is embedded as a total valuation `channel → y → x → ℚ`;
channel counts and spatial extents are carried separately.  The SiLU
nonlinearity and the RMSNorm module compute transcendental functions
(sigmoid, square root), so they enter the embedding as abstract function
parameters; every claim below holds for all of them. -/

def Ten : Type := Nat → Nat → Nat → ℚ

/-- Python `int(...)`: truncation toward zero. -/
def pyInt (q : ℚ) : Int := if 0 ≤ q then ⌊q⌋ else ⌈q⌉

/-- `hidden_channels = int(expand_ratio * in_channels)` (line 48). -/
def glumb_hidden_channels (er : ℚ) (ic : Nat) : Nat := (pyInt (er * ic)).toNat

/-- Output channel count of `conv_inverted` (line 53): `hidden_channels * 2`. -/
def glumb_expanded_channels (er : ℚ) (ic : Nat) : Nat :=
  glumb_hidden_channels er ic * 2

/-- A 1×1 convolution with bias over `ci` input channels. -/
def conv2d_1x1 (ci : Nat) (w : Nat → Nat → ℚ) (bias : Nat → ℚ) (t : Ten) : Ten :=
  fun o y x => bias o + ∑ i ∈ Finset.range ci, w o i * t i y x

/-- A 1×1 convolution without bias over `ci` input channels
(`conv_point`, line 62: `bias=False`). -/
def conv2d_1x1_nobias (ci : Nat) (w : Nat → Nat → ℚ) (t : Ten) : Ten :=
  fun o y x => ∑ i ∈ Finset.range ci, w o i * t i y x

/-- A depthwise 3×3 convolution, stride 1, padding 1, `groups` equal to the
channel count (`conv_depth`, lines 54-61): each channel is convolved with its
own 3×3 kernel, so the channel count is preserved. -/
def conv2d_depthwise3x3 (H W : Nat) (w : Nat → Nat → Nat → ℚ) (bias : Nat → ℚ)
    (t : Ten) : Ten :=
  fun c y x => bias c + ∑ ky ∈ Finset.range 3, ∑ kx ∈ Finset.range 3,
    (if 1 ≤ y + ky ∧ y + ky ≤ H ∧ 1 ≤ x + kx ∧ x + kx ≤ W then
      w c ky kx * t c (y + ky - 1) (x + kx - 1) else 0)

/-- Configuration of `GLUMBConv.__init__` (lines 38-50); `expand_rate` embeds
the constructor argument `expand_ratio`. -/
structure GLUMBConvCfg where
  in_channels : Nat
  out_channels : Nat
  expand_rate : ℚ := 4
  rms_norm : Bool := false
  residual_connection : Bool := true

structure GLUMBConvParams where
  w_inverted : Nat → Nat → ℚ
  b_inverted : Nat → ℚ
  w_depth : Nat → Nat → Nat → ℚ
  b_depth : Nat → ℚ
  w_point : Nat → Nat → ℚ
  act : ℚ → ℚ
  rms : Ten → Ten

/-- `GLUMBConv.forward` (lines 70-90), statement by statement:
`conv_inverted`, SiLU, `conv_depth`, `torch.chunk(·, 2, dim=1)` into value
and gate halves, `value * SiLU(gate)`, `conv_point`, the optional RMSNorm
across channels, the optional residual add. -/
def glumb_forward (cfg : GLUMBConvCfg) (p : GLUMBConvParams) (H W : Nat)
    (t : Ten) : Ten :=
  let hc := glumb_hidden_channels cfg.expand_rate cfg.in_channels
  let h1 := conv2d_1x1 cfg.in_channels p.w_inverted p.b_inverted t
  let h2 : Ten := fun c y x => p.act (h1 c y x)
  let h3 := conv2d_depthwise3x3 H W p.w_depth p.b_depth h2
  let value : Ten := fun c y x => h3 c y x
  let gate : Ten := fun c y x => h3 (hc + c) y x
  let h4 : Ten := fun c y x => value c y x * p.act (gate c y x)
  let h5 := conv2d_1x1_nobias hc p.w_point h4
  let h6 := if cfg.rms_norm then p.rms h5 else h5
  if cfg.residual_connection then (fun c y x => h6 c y x + t c y x) else h6

/-- The feed-forward pipeline as the specification words it, with the
expansion width amended from `2 * expand_ratio * in_channels` to
`2 * int(expand_ratio * in_channels)`: a 1×1 convolution expands the
channels, SiLU, a channel-preserving depthwise 3×3 convolution, a split in
half along channels into a value branch and a gate branch, multiplication of
value by SiLU(gate), a bias-free 1×1 projection to `out_channels`, an
optional root-mean-square channel normalization, an optional residual add of
the block's input. -/
def glumb_spec_pipeline (cfg : GLUMBConvCfg) (p : GLUMBConvParams) (H W : Nat)
    (t : Ten) : Ten :=
  let half := glumb_expanded_channels cfg.expand_rate cfg.in_channels / 2
  let expanded := conv2d_1x1 cfg.in_channels p.w_inverted p.b_inverted t
  let activated : Ten := fun c y x => p.act (expanded c y x)
  let mixed := conv2d_depthwise3x3 H W p.w_depth p.b_depth activated
  let gated : Ten := fun c y x => mixed c y x * p.act (mixed (half + c) y x)
  let projected := conv2d_1x1_nobias half p.w_point gated
  let normalized := if cfg.rms_norm then p.rms projected else projected
  if cfg.residual_connection then (fun c y x => normalized c y x + t c y x)
  else normalized

/-! ## Attention processors (`attn_processors`, `set_attn_processor`,
lines 329-393)

A module is embedded as a tree: a flag for `hasattr(module, "get_processor")`
(true exactly for `Attention` sub-layers), the current processor (a `Nat`
stands for the processor object), and the ordered list of named children
(`named_children()`). -/

mutual
inductive PModule where
  | mk (hasProcessor : Bool) (proc : Nat) (children : PChildren)
inductive PChildren where
  | nil
  | cons (name : String) (m : PModule) (rest : PChildren)
end

/-! `fn_recursive_add_processors` (lines 340-351): record
`name ++ ".processor"` when the module has `get_processor`, then recurse into
the named children. -/
mutual
def fn_recursive_add_processors : String → PModule → List (String × Nat)
  | name, .mk hasProc p cs =>
    (if hasProc then [(name ++ ".processor", p)] else []) ++
      add_processors_children name cs
def add_processors_children : String → PChildren → List (String × Nat)
  | _, .nil => []
  | name, .cons sub m rest =>
    fn_recursive_add_processors (name ++ "." ++ sub) m ++
      add_processors_children name rest
end

/-- The `attn_processors` property (lines 329-356): traverse the model's
top-level named children (whose paths carry no leading dot). -/
def attn_processors : PChildren → List (String × Nat)
  | .nil => []
  | .cons name m rest => fn_recursive_add_processors name m ++ attn_processors rest

/-- `dict.pop(key)`: the value at `key` and the dictionary without that
entry, or `none` when the key is absent (Python raises `KeyError`). -/
def dict_pop (k : String) : List (String × Nat) → Option (Nat × List (String × Nat))
  | [] => none
  | (k1, v) :: rest =>
    if k1 = k then some (v, rest)
    else (dict_pop k rest).map (fun r => (r.1, (k1, v) :: r.2))

def keyErrorMsg : String := "KeyError"

def valueErrorMsg : String :=
  "ValueError: number of processors does not match number of attention layers"

/-! `fn_recursive_attn_processor` (lines 382-390) in the dict case:
`module.set_processor(processor.pop(f"{name}.processor"))` at every module
that has `set_processor`, then recursion into the children.  Returns the
updated module together with the remaining dictionary, or the `KeyError`
that `pop` raises on a missing key. -/
mutual
def fn_recursive_attn_processor : String → PModule → List (String × Nat) →
    Except String (PModule × List (String × Nat))
  | name, .mk hasProc p cs, d =>
    if hasProc then
      match dict_pop (name ++ ".processor") d with
      | none => .error keyErrorMsg
      | some (v, d1) =>
        match set_processor_children name cs d1 with
        | .error e => .error e
        | .ok (cs1, d2) => .ok (.mk hasProc v cs1, d2)
    else
      match set_processor_children name cs d with
      | .error e => .error e
      | .ok (cs1, d2) => .ok (.mk hasProc p cs1, d2)
def set_processor_children : String → PChildren → List (String × Nat) →
    Except String (PChildren × List (String × Nat))
  | _, .nil, d => .ok (.nil, d)
  | name, .cons sub m rest, d =>
    match fn_recursive_attn_processor (name ++ "." ++ sub) m d with
    | .error e => .error e
    | .ok (m1, d1) =>
      match set_processor_children name rest d1 with
      | .error e => .error e
      | .ok (rest1, d2) => .ok (.cons sub m1 rest1, d2)
end

/-- The top-level traversal of `set_attn_processor` in the dict case
(lines 392-393). -/
def set_attn_top : PChildren → List (String × Nat) →
    Except String (PChildren × List (String × Nat))
  | .nil, d => .ok (.nil, d)
  | .cons name m rest, d =>
    match fn_recursive_attn_processor name m d with
    | .error e => .error e
    | .ok (m1, d1) =>
      match set_attn_top rest d1 with
      | .error e => .error e
      | .ok (rest1, d2) => .ok (.cons name m1 rest1, d2)

/-- `set_attn_processor` (lines 358-393) given a dict: count the entries of
`attn_processors`, raise `ValueError` when the dict's size differs — before
any processor is replaced — and otherwise traverse, popping each path. -/
def set_attn_processor_dict (children : PChildren) (d : List (String × Nat)) :
    Except String PChildren :=
  let count := (attn_processors children).length
  if d.length ≠ count then .error valueErrorMsg
  else
    match set_attn_top children d with
    | .error e => .error e
    | .ok (cs, _) => .ok cs

/-! `fn_recursive_attn_processor` in the non-dict case:
`module.set_processor(processor)` everywhere, no popping and no
cardinality check, hence no possibility of error. -/
mutual
def set_processor_single : Nat → PModule → PModule
  | v, .mk hasProc p cs =>
    .mk hasProc (if hasProc then v else p) (set_single_children v cs)
def set_single_children : Nat → PChildren → PChildren
  | _, .nil => .nil
  | v, .cons name m rest => .cons name (set_processor_single v m) (set_single_children v rest)
end

/-- `set_attn_processor` (lines 358-393) given a single processor instance. -/
def set_attn_processor_single (children : PChildren) (v : Nat) : PChildren :=
  set_single_children v children

/-! ## Shape semantics of the forward passes

Shapes are dimension lists; fallible tensor operations return
`Except String`.  External collaborators (`PatchEmbed`, `AdaLayerNormSingle`,
`Attention`, the caption projection) are shape-modelled from the spec where
noted; everything else follows the source line by line. -/

def attn2AttributeError : String :=
  "AttributeError: SanaTransformerBlock object has no attribute attn2"

/-- Shape semantics of `SanaTransformerBlock.forward` (lines 150-195) on a
`[b, n, dim]` sequence with a `[b, tsCols]` conditioning tensor and the
block's patch-grid `height`/`width` arguments:
1. `timestep.reshape(batch_size, 6, -1)` plus the `[6, dim]` table requires
   `tsCols = 6 * dim`; the six chunks are `[b, 1, dim]` each.
2. Self-attention (`attn1`, the linear-attention variant — shape-modelled
   from the spec) preserves `[b, n, dim]`, is gated and residual-added.
3. `if self.attn2 is not None:` — when `__init__` ran with
   `cross_attention_dim=None` the `attn2` attribute was never assigned, so
   the lookup itself raises `AttributeError` (`nn.Module.__getattr__`).
   Otherwise cross-attention preserves the query shape and is
   residual-added.
4. `norm2`, affine modulation, `unflatten(1, (height, width))` — requiring
   `n = height * width` — the `GLUMBConv` feed-forward on the
   `[b, dim, height, width]` grid, flatten back, gate and residual. -/
def blockForwardShape (hasCrossAttn : Bool) (b n dim tsCols height width : Nat) :
    Except String (List Nat) :=
  if tsCols ≠ 6 * dim then .error "RuntimeError: modulation reshape"
  else if hasCrossAttn = false then .error attn2AttributeError
  else if n ≠ height * width then .error "RuntimeError: unflatten"
  else .ok [b, n, dim]

/-- One iteration of the block loop (lines 466-475) at the shape level:
feed the current `[b, n, dim]` sequence, the `[b, 6*dim]` conditioning
tensor and the patch-grid extents to the block. -/
def sana_block_step (hasCrossAttn : Bool) (hp wp : Nat)
    (acc : Except String (List Nat)) : Except String (List Nat) :=
  match acc with
  | .error e => .error e
  | .ok s =>
    match s with
    | [b1, n1, d1] => blockForwardShape hasCrossAttn b1 n1 d1 (6 * d1) hp wp
    | _ => .error "RuntimeError: block input rank"

/-- Shape semantics of `SanaTransformer2DModel.forward` (lines 395-504) on
an input latent `[b, ch, height, width]`:
patch embedding (shape-modelled from the spec: `(height/p)*(width/p)`
tokens of width `inner_dim`, requiring the channel count to match and the
spatial extents to be divisible by `patch_size`), timestep embedding
(shape-modelled from the spec: `[b, 6*inner_dim]` and `[b, inner_dim]`),
caption projection and normalization, the `num_layers` transformer blocks,
the output `norm_out`/modulation/`proj_out`, and the unpatchify
reshape-permute-reshape of lines 489-500 with `-1` dimensions resolved as
PyTorch does (total element count divided by the known dimensions, exactly). -/
def forwardShape (c : SanaConfig) (b ch height width _encSeq : Nat) :
    Except String (List Nat) :=
  let p := c.patch_size
  let hp := height / p
  let wp := width / p
  let d := sana_inner_dim c
  if p = 0 then .error "ZeroDivisionError"
  else if ch ≠ c.in_channels then .error "RuntimeError: conv channels"
  else if ¬ (p ∣ height ∧ p ∣ width) then .error "RuntimeError: patch size"
  else
    match (List.range c.num_layers).foldl
        (fun acc _ => sana_block_step (sana_has_cross c) hp wp acc)
        (Except.ok [b, hp * wp, d]) with
    | .error e => .error e
    | .ok s =>
      match s with
      | [b1, n1, d1] =>
        if d1 ≠ d then .error "RuntimeError: proj_out in_features"
        else
          let f := proj_out_features c
          let total := b1 * n1 * f
          let known := b * hp * wp * p * p
          if known = 0 then .error "RuntimeError: reshape"
          else if ¬ (known ∣ total) then .error "RuntimeError: reshape"
          else
            let last := total / known
            let total2 := b * last * hp * p * wp * p
            let known2 := b * (hp * p) * (wp * p)
            if known2 = 0 then .error "RuntimeError: reshape"
            else if ¬ (known2 ∣ total2) then .error "RuntimeError: reshape"
            else .ok [b, total2 / known2, hp * p, wp * p]
      | _ => .error "RuntimeError: output rank"

/-! ## Claim C2: attention-mask conversion -/

/-- C2: In `SanaTransformer2DModel.forward`, every 2-D mask of shape
`[batch, key_tokens]` with entries 1=keep/0=discard (whether
`attention_mask` or `encoder_attention_mask`) is converted to an additive
bias of shape `[batch, 1, key_tokens]` with `0` for keep and `-10000` for
discard, a mask with more than 2 dimensions is passed through unchanged,
and the conversion applied to the primary-attention mask and to the
cross-attention mask is identical, performed in the forward prologue before
either attention is invoked. -/
theorem sana_attention_mask_bias (t : PTensor) (bsz k i j : Nat)
    (hshape : t.shape = [bsz, k]) :
    ((convert_attention_mask (some t)).getD t).shape = [bsz, 1, k] ∧
    ((convert_attention_mask (some t)).getD t).val [i, 0, j] =
      (1 - t.val [i, j]) * (-10000) ∧
    (t.val [i, j] = 1 →
      ((convert_attention_mask (some t)).getD t).val [i, 0, j] = 0) ∧
    (t.val [i, j] = 0 →
      ((convert_attention_mask (some t)).getD t).val [i, 0, j] = -10000) ∧
    (∀ u : PTensor, u.shape.length ≠ 2 → convert_attention_mask (some u) = some u) ∧
    convert_encoder_attention_mask = convert_attention_mask ∧
    (∀ am em, prepare_attention_masks am em =
      (convert_attention_mask am, convert_attention_mask em)) := by
  have hconv : convert_encoder_attention_mask = convert_attention_mask := by
    funext m
    cases m with
    | none => rfl
    | some u => rfl
  refine ⟨?_, ?_, ?_, ?_, ?_, hconv, ?_⟩
  · simp [convert_attention_mask, hshape]
  · simp [convert_attention_mask, hshape]
  · intro h1
    simp [convert_attention_mask, hshape, h1]
  · intro h0
    simp [convert_attention_mask, hshape, h0]
  · intro u hu
    simp [convert_attention_mask, hu]
  · intro am em
    simp [prepare_attention_masks, hconv]

def maskW : PTensor :=
  { shape := [2, 3], val := fun ix => if ix.getD 1 0 = 1 then 1 else 0 }

theorem sana_attention_mask_bias_witness :
    maskW.shape = [2, 3] ∧
    ((convert_attention_mask (some maskW)).getD maskW).val [0, 0, 1] = 0 :=
  ⟨rfl, (sana_attention_mask_bias maskW 2 3 0 1 rfl).2.2.1 rfl⟩

/-! ## Claim C8: modulation chunking is a lossless split -/

/-- C8: In `SanaTransformerBlock.forward`, splitting
`scale_shift_table[None] + timestep.reshape(batch, 6, -1)` into the six
modulation chunks (shift/scale/gate for attention and for feed-forward)
along dimension 1 is a pure, lossless split: recombining the six chunks
restores the pre-chunk tensor at every valid index. -/
theorem sana_modulation_chunks_lossless (d : Nat) (table ts : Nat → Nat → ℚ)
    (b i j : Nat) (hi : i < 6) :
    recombine6 (shift_msa d table ts) (scale_msa d table ts)
        (gate_msa d table ts) (shift_mlp d table ts) (scale_mlp d table ts)
        (gate_mlp d table ts) b i j
      = premod_tensor d table ts b i j := by
  interval_cases i <;> rfl

def tableW : Nat → Nat → ℚ := fun i j => (i : ℚ) + j
def tsW : Nat → Nat → ℚ := fun b r => (b : ℚ) * 100 + r

theorem sana_modulation_chunks_lossless_witness :
    (5 : Nat) < 6 ∧
    recombine6 (shift_msa 2 tableW tsW) (scale_msa 2 tableW tsW)
        (gate_msa 2 tableW tsW) (shift_mlp 2 tableW tsW)
        (scale_mlp 2 tableW tsW) (gate_mlp 2 tableW tsW) 1 5 1
      = premod_tensor 2 tableW tsW 1 5 1 :=
  ⟨by decide, sana_modulation_chunks_lossless 2 tableW tsW 1 5 1 (by decide)⟩

/-! ## Claim C10: out_channels fallback -/

/-- C10: In `SanaTransformer2DModel.__init__`, passing `out_channels = None`
(or the falsy value `0`) makes the model use `in_channels` as the output
channel count, and the final linear projection `proj_out` then has width
`patch_size * patch_size * in_channels`. -/
theorem sana_out_channels_fallback (c : SanaConfig)
    (h : c.out_channels = none ∨ c.out_channels = some 0) :
    resolved_out_channels c = c.in_channels ∧
    proj_out_features c = c.patch_size * c.patch_size * c.in_channels := by
  rcases h with h | h <;>
    simp [resolved_out_channels, proj_out_features, h]

def cfgNoOut : SanaConfig := { out_channels := none }

theorem sana_out_channels_fallback_witness :
    (cfgNoOut.out_channels = none ∨ cfgNoOut.out_channels = some 0) ∧
    (resolved_out_channels cfgNoOut = cfgNoOut.in_channels ∧
     proj_out_features cfgNoOut =
       cfgNoOut.patch_size * cfgNoOut.patch_size * cfgNoOut.in_channels) :=
  ⟨Or.inl rfl, sana_out_channels_fallback cfgNoOut (Or.inl rfl)⟩

/-! ## Claim C3: the gradient-checkpointing interval is inert -/

def blocksFourLayers : List BlockAttrs := List.replicate 4 {}

/-- C3 (code bug): the claimed policy — a positive
`gradient_checkpointing_interval` limiting which of the `num_layers` blocks
checkpoint — does not happen.  With checkpointing and gradients enabled and
interval 2, all four blocks of a 4-layer model are checkpointed, exactly as
with the interval unset: the interval branch of `create_block_forward` only
calls `_set_gradient_checkpointing(block, ...)`, which is a no-op because
`SanaTransformerBlock` has no `gradient_checkpointing` attribute, and the
checkpoint decision reads only the model-level flag. -/
theorem sana_checkpoint_interval_inert :
    block_checkpoint_flags ⟨true, some 2, 5⟩ true blocksFourLayers
        = [true, true, true, true] ∧
    block_checkpoint_flags ⟨true, none, 5⟩ true blocksFourLayers
        = [true, true, true, true] ∧
    (create_block_forward (α := Unit) ⟨true, some 2, 5⟩ true {} id).1 = {} := by
  refine ⟨rfl, rfl, rfl⟩

/-! ## Claim C7: output value is independent of the interval -/

/-- C7: for fixed inputs, `SanaTransformer2DModel.forward` produces the same
output for every value of the gradient-checkpointing interval (including
unset): in the block loop, the interval only selects block attributes that
are never consulted, and the per-block callable is the checkpoint wrapper —
whose value equals the wrapped block's — or the block itself, a choice
independent of the interval.  Stated for an arbitrary hidden-state type and
arbitrary block functions. -/
theorem sana_checkpoint_interval_value_irrelevant {α : Type}
    (gc grad_enabled : Bool) (i1 i2 : Option Int) (ts : Int)
    (blocks : List (BlockAttrs × (α → α))) (x : α) :
    run_transformer_blocks ⟨gc, i1, ts⟩ grad_enabled blocks x =
    run_transformer_blocks ⟨gc, i2, ts⟩ grad_enabled blocks x := by
  induction blocks generalizing x with
  | nil => rfl
  | cons b rest ih =>
    have hfn : (create_block_forward ⟨gc, i1, ts⟩ grad_enabled b.1 b.2).2.2 =
        (create_block_forward ⟨gc, i2, ts⟩ grad_enabled b.1 b.2).2.2 := by
      cases gc <;> cases grad_enabled <;>
        simp [create_block_forward, checkpoint_apply]
    simp only [run_transformer_blocks, List.foldl_cons] at *
    rw [hfn]
    exact ih _

/-! ## Claim C1: forward with cross-attention disabled -/

def cfgNoCross : SanaConfig :=
  { in_channels := 3, out_channels := some 3, num_attention_heads := 2,
    attention_head_dim := 2, num_layers := 2, cross_attention_dim := none,
    caption_channels := 5, patch_size := 2 }

/-- C1 (code bug): with `cross_attention_dim = None`,
`SanaTransformerBlock.__init__` skips the `norm2`/`attn2` assignments
(lines 127-141), so the guard `if self.attn2 is not None:` in
`SanaTransformerBlock.forward` (line 176) raises `AttributeError` —
`nn.Module.__getattr__` fails on the never-assigned attribute — instead of
skipping cross-attention; `SanaTransformer2DModel.forward` therefore raises
on a correctly sized input latent rather than producing a
`[batch, out_channels, height, width]` output. -/
theorem sana_forward_no_cross_raises :
    forwardShape cfgNoCross 1 3 4 4 3 = .error attn2AttributeError ∧
    blockForwardShape false 1 4 4 24 2 2 = .error attn2AttributeError := by
  refine ⟨rfl, rfl⟩

/-! ## Claim C6: the GLUMBConv pipeline -/

/-- C6 as stated is false at an explicit input: with `expand_ratio = 5/2`
and `in_channels = 3`, `conv_inverted` (line 53) expands to
`2 * int(5/2 * 3) = 14` channels, not `2 * (5/2) * 3 = 15`: `__init__`
truncates `expand_ratio * in_channels` to an integer first (line 48). -/
theorem glumb_expanded_channels_counterexample :
    glumb_expanded_channels (5/2) 3 = 14 ∧
    ((glumb_expanded_channels (5/2) 3 : ℚ) ≠ 2 * (5/2) * 3) := by
  have h : glumb_expanded_channels (5/2) 3 = 14 := by
    have h7 : ⌊(5/2 * 3 : ℚ)⌋ = 7 := by norm_num
    simp [glumb_expanded_channels, glumb_hidden_channels, pyInt, h7]
  refine ⟨h, ?_⟩
  rw [h]
  norm_num

/-- C6 amended: `GLUMBConv.forward` computes, in order, a 1×1 convolution
expanding the channel count to `2 * int(expand_ratio * in_channels)`
(instead of exactly `2 * expand_ratio * in_channels`; the two agree whenever
`expand_ratio * in_channels` is an integer), a SiLU nonlinearity, a
depthwise 3×3 convolution preserving the channel count, a split in half
along channels into a value branch and a gate branch, multiplication of
value by SiLU(gate), a bias-free 1×1 convolution projecting down to
`out_channels`, an optional root-mean-square channel normalization, and an
optional residual add of the block's input — i.e. it equals the
specification's pipeline with the amended expansion width, which for
nonnegative `expand_ratio` is `2 * ⌊expand_ratio * in_channels⌋`. -/
theorem glumb_forward_matches_spec_pipeline :
    (∀ (cfg : GLUMBConvCfg) (p : GLUMBConvParams) (H W : Nat) (t : Ten)
        (c y x : Nat),
        glumb_forward cfg p H W t c y x = glumb_spec_pipeline cfg p H W t c y x) ∧
    (∀ er : ℚ, 0 ≤ er → ∀ ic : Nat,
        (glumb_expanded_channels er ic : ℤ) = 2 * ⌊er * (ic : ℚ)⌋) := by
  constructor
  · intro cfg p H W t c y x
    have h2 : glumb_expanded_channels cfg.expand_rate cfg.in_channels / 2 =
        glumb_hidden_channels cfg.expand_rate cfg.in_channels := by
      simp [glumb_expanded_channels,
        Nat.mul_div_cancel (glumb_hidden_channels cfg.expand_rate cfg.in_channels)
          (show 0 < 2 by norm_num)]
    simp only [glumb_forward, glumb_spec_pipeline, h2]
  · intro er her ic
    have hnn : (0 : ℚ) ≤ er * (ic : ℚ) := by positivity
    have hfl : (0 : ℤ) ≤ ⌊er * (ic : ℚ)⌋ := Int.floor_nonneg.mpr hnn
    have hh : glumb_expanded_channels er ic = (⌊er * (ic : ℚ)⌋).toNat * 2 := by
      simp [glumb_expanded_channels, glumb_hidden_channels, pyInt, hnn]
    rw [hh]
    push_cast [Int.toNat_of_nonneg hfl]
    ring

theorem glumb_forward_matches_spec_pipeline_witness :
    (0 : ℚ) ≤ 5/2 ∧
    (glumb_expanded_channels (5/2) 4 : ℤ) = 2 * ⌊(5/2 : ℚ) * ((4 : Nat) : ℚ)⌋ :=
  ⟨by norm_num, glumb_forward_matches_spec_pipeline.2 (5/2) (by norm_num) 4⟩

/-! ## Routing infrastructure for `set_attn_processor` -/

/-! The module tree with the processor at each dotted path `pth` replaced by
`f pth` — the intended effect of a dict keyed exactly by the
`attn_processors` paths. -/
mutual
def replace_procs : (String → Nat) → String → PModule → PModule
  | f, name, .mk hasProc p cs =>
    .mk hasProc (if hasProc then f (name ++ ".processor") else p)
      (replace_children f name cs)
def replace_children : (String → Nat) → String → PChildren → PChildren
  | _, _, .nil => .nil
  | f, name, .cons sub m rest =>
    .cons sub (replace_procs f (name ++ "." ++ sub) m)
      (replace_children f name rest)
end

def replace_top : (String → Nat) → PChildren → PChildren
  | _, .nil => .nil
  | f, .cons name m rest => .cons name (replace_procs f name m) (replace_top f rest)

/-! A dict whose keys are exactly the traversal's paths, in traversal order,
is consumed entry by entry: each `pop` finds its key at the head, and the
traversal returns the replaced tree with the dict's suffix untouched. -/
mutual
theorem route_module : ∀ (f : String → Nat) (name : String) (m : PModule)
      (rest : List (String × Nat)),
    fn_recursive_attn_processor name m
        ((fn_recursive_add_processors name m).map (fun kv => (kv.1, f kv.1)) ++ rest)
      = .ok (replace_procs f name m, rest)
  | f, name, .mk hasProc p cs, rest => by
    cases hasProc with
    | false =>
      simp [fn_recursive_add_processors, fn_recursive_attn_processor,
        replace_procs, route_children f name cs rest]
    | true =>
      simp [fn_recursive_add_processors, fn_recursive_attn_processor,
        replace_procs, dict_pop, route_children f name cs rest]
theorem route_children : ∀ (f : String → Nat) (name : String) (cs : PChildren)
      (rest : List (String × Nat)),
    set_processor_children name cs
        ((add_processors_children name cs).map (fun kv => (kv.1, f kv.1)) ++ rest)
      = .ok (replace_children f name cs, rest)
  | f, name, .nil, rest => by
    simp [add_processors_children, set_processor_children, replace_children]
  | f, name, .cons sub m rest0, rest => by
    simp [add_processors_children, set_processor_children, replace_children,
      List.map_append, List.append_assoc,
      route_module f (name ++ "." ++ sub) m
        ((add_processors_children name rest0).map (fun kv => (kv.1, f kv.1)) ++ rest),
      route_children f name rest0 rest]
end

theorem route_top : ∀ (f : String → Nat) (cs : PChildren)
      (rest : List (String × Nat)),
    set_attn_top cs ((attn_processors cs).map (fun kv => (kv.1, f kv.1)) ++ rest)
      = .ok (replace_top f cs, rest)
  | f, .nil, rest => by simp [attn_processors, set_attn_top, replace_top]
  | f, .cons name m rest0, rest => by
    simp [attn_processors, set_attn_top, replace_top, List.map_append,
      List.append_assoc,
      route_module f name m
        ((attn_processors rest0).map (fun kv => (kv.1, f kv.1)) ++ rest),
      route_top f rest0 rest]

/-! `attn_processors` of the replaced tree: same paths, new values. -/
mutual
theorem procs_replace_module : ∀ (f : String → Nat) (name : String) (m : PModule),
    fn_recursive_add_processors name (replace_procs f name m)
      = (fn_recursive_add_processors name m).map (fun kv => (kv.1, f kv.1))
  | f, name, .mk hasProc p cs => by
    cases hasProc <;>
      simp [replace_procs, fn_recursive_add_processors,
        procs_replace_children f name cs]
theorem procs_replace_children : ∀ (f : String → Nat) (name : String)
      (cs : PChildren),
    add_processors_children name (replace_children f name cs)
      = (add_processors_children name cs).map (fun kv => (kv.1, f kv.1))
  | f, name, .nil => by simp [replace_children, add_processors_children]
  | f, name, .cons sub m rest => by
    simp [replace_children, add_processors_children,
      procs_replace_module f (name ++ "." ++ sub) m,
      procs_replace_children f name rest]
end

theorem procs_replace_top : ∀ (f : String → Nat) (cs : PChildren),
    attn_processors (replace_top f cs)
      = (attn_processors cs).map (fun kv => (kv.1, f kv.1))
  | f, .nil => by simp [replace_top, attn_processors]
  | f, .cons name m rest => by
    simp [replace_top, attn_processors, procs_replace_module f name m,
      procs_replace_top f rest]

/-! The only error the dict traversal itself can raise is the `KeyError`
from `dict.pop`; the `ValueError` comes only from the cardinality check. -/
mutual
theorem err_module : ∀ (name : String) (m : PModule) (d : List (String × Nat))
      (e : String),
    fn_recursive_attn_processor name m d = .error e → e = keyErrorMsg
  | name, .mk hasProc p cs, d, e => by
    intro h
    simp only [fn_recursive_attn_processor] at h
    cases hasProc with
    | false =>
      simp only [Bool.false_eq_true, if_false] at h
      rcases hsc : set_processor_children name cs d with e1 | p1
      · rw [hsc] at h
        simp only [Except.error.injEq] at h
        exact h ▸ err_children name cs d e1 hsc
      · obtain ⟨cs1, d2⟩ := p1
        rw [hsc] at h
        simp at h
    | true =>
      simp only [if_true] at h
      rcases hpop : dict_pop (name ++ ".processor") d with _ | vd1
      · rw [hpop] at h
        simp only [Except.error.injEq] at h
        exact h.symm
      · obtain ⟨v, d1⟩ := vd1
        rw [hpop] at h
        dsimp only at h
        rcases hsc : set_processor_children name cs d1 with e1 | p1
        · rw [hsc] at h
          simp only [Except.error.injEq] at h
          exact h ▸ err_children name cs d1 e1 hsc
        · obtain ⟨cs1, d2⟩ := p1
          rw [hsc] at h
          simp at h
theorem err_children : ∀ (name : String) (cs : PChildren)
      (d : List (String × Nat)) (e : String),
    set_processor_children name cs d = .error e → e = keyErrorMsg
  | name, .nil, d, e => by
    intro h
    simp [set_processor_children] at h
  | name, .cons sub m rest, d, e => by
    intro h
    simp only [set_processor_children] at h
    rcases hm : fn_recursive_attn_processor (name ++ "." ++ sub) m d with e1 | p1
    · rw [hm] at h
      simp only [Except.error.injEq] at h
      exact h ▸ err_module (name ++ "." ++ sub) m d e1 hm
    · obtain ⟨m1, d1⟩ := p1
      rw [hm] at h
      dsimp only at h
      rcases hr : set_processor_children name rest d1 with e2 | p2
      · rw [hr] at h
        simp only [Except.error.injEq] at h
        exact h ▸ err_children name rest d1 e2 hr
      · obtain ⟨rest1, d2⟩ := p2
        rw [hr] at h
        simp at h
end

theorem err_top : ∀ (cs : PChildren) (d : List (String × Nat)) (e : String),
    set_attn_top cs d = .error e → e = keyErrorMsg
  | .nil, d, e => by
    intro h
    simp [set_attn_top] at h
  | .cons name m rest, d, e => by
    intro h
    simp only [set_attn_top] at h
    rcases hm : fn_recursive_attn_processor name m d with e1 | p1
    · rw [hm] at h
      simp only [Except.error.injEq] at h
      exact h ▸ err_module name m d e1 hm
    · obtain ⟨m1, d1⟩ := p1
      rw [hm] at h
      dsimp only at h
      rcases hr : set_attn_top rest d1 with e2 | p2
      · rw [hr] at h
        simp only [Except.error.injEq] at h
        exact h ▸ err_top rest d1 e2 hr
      · obtain ⟨rest1, d2⟩ := p2
        rw [hr] at h
        simp at h

/-! A single (non-dict) processor argument acts like a constant-valued
replacement at every path. -/
mutual
theorem single_eq_replace_module : ∀ (v : Nat) (name : String) (m : PModule),
    set_processor_single v m = replace_procs (fun _ => v) name m
  | v, name, .mk hasProc p cs => by
    cases hasProc <;>
      simp [set_processor_single, replace_procs,
        single_eq_replace_children v name cs]
theorem single_eq_replace_children : ∀ (v : Nat) (name : String) (cs : PChildren),
    set_single_children v cs = replace_children (fun _ => v) name cs
  | v, name, .nil => by simp [set_single_children, replace_children]
  | v, name, .cons sub m rest => by
    simp [set_single_children, replace_children,
      single_eq_replace_module v (name ++ "." ++ sub) m,
      single_eq_replace_children v name rest]
end

theorem single_eq_replace_top : ∀ (v : Nat) (cs : PChildren),
    set_single_children v cs = replace_top (fun _ => v) cs
  | v, .nil => by simp [set_single_children, replace_top]
  | v, .cons name m rest => by
    simp [set_single_children, replace_top,
      single_eq_replace_module v name m, single_eq_replace_top v rest]

/-! ## Claim C9: a single processor replaces every layer's processor -/

/-- C9: When `set_attn_processor` is given a single processor instance
rather than a dict, the `isinstance(processor, dict)` guard skips the
cardinality check entirely — the embedded single-instance path is total, so
the size-mismatch error is unreachable — and the recursion installs that
same instance at every attention layer: afterwards `attn_processors` has the
same paths and maps each of them to the supplied instance. -/
theorem sana_set_single_processor_replaces_all (children : PChildren) (v : Nat) :
    attn_processors (set_attn_processor_single children v)
      = (attn_processors children).map (fun kv => (kv.1, v)) := by
  unfold set_attn_processor_single
  rw [single_eq_replace_top v children, procs_replace_top]

/-! ## Claim C4: `set_attn_processor` with a dict -/

def attnLeafCx : PModule := .mk true 0 .nil

def childrenCx : PChildren :=
  .cons "transformer_blocks"
    (.mk false 0 (.cons "0" (.mk false 0 (.cons "attn1" attnLeafCx .nil)) .nil))
    .nil

/-- C4 as stated is false at an explicit input: the model tree `childrenCx`
has exactly one attention layer, and the dict `[("bogus", 7)]` has the
matching cardinality 1, yet `set_attn_processor` raises — the traversal's
`processor.pop("transformer_blocks.0.attn1.processor")` hits a missing key
(`KeyError`), an error distinct from the size-mismatch `ValueError` — so
"raises an error if and only if the dict's size differs" fails in the
only-if direction. -/
theorem sana_set_attn_processor_counterexample :
    ([("bogus", 7)] : List (String × Nat)).length
        = (attn_processors childrenCx).length ∧
    set_attn_processor_dict childrenCx [("bogus", 7)] = .error keyErrorMsg ∧
    keyErrorMsg ≠ valueErrorMsg := by
  refine ⟨rfl, rfl, by decide⟩

/-- C4 amended: given a dict, `set_attn_processor` raises the size-mismatch
`ValueError` if and only if the dict's size differs from the number of
entries of `attn_processors`, and it does so before any processor is
replaced (the check precedes the traversal, so that failure is atomic);
given a dict of the correct cardinality whose keys are exactly the dotted
paths of `attn_processors`, it routes each supplied processor to the
attention layer at the matching path; a correct-cardinality dict whose keys
do not all match instead raises a `KeyError` from `pop` during traversal. -/
theorem sana_set_attn_processor_dict_correct (children : PChildren)
    (d : List (String × Nat)) (f : String → Nat) :
    (d.length ≠ (attn_processors children).length →
      set_attn_processor_dict children d = .error valueErrorMsg) ∧
    (d.length = (attn_processors children).length →
      set_attn_processor_dict children d ≠ .error valueErrorMsg) ∧
    set_attn_processor_dict children
        ((attn_processors children).map (fun kv => (kv.1, f kv.1)))
      = .ok (replace_top f children) ∧
    attn_processors (replace_top f children)
      = (attn_processors children).map (fun kv => (kv.1, f kv.1)) := by
  refine ⟨?_, ?_, ?_, procs_replace_top f children⟩
  · intro hne
    simp [set_attn_processor_dict, hne]
  · intro heq hcontra
    simp only [set_attn_processor_dict] at hcontra
    rw [if_neg (by simp [heq])] at hcontra
    rcases hst : set_attn_top children d with e1 | p1
    · have hk := err_top children d e1 hst
      rw [hst] at hcontra
      dsimp only at hcontra
      simp only [Except.error.injEq] at hcontra
      rw [hk] at hcontra
      exact absurd hcontra (by decide)
    · obtain ⟨cs1, d2⟩ := p1
      rw [hst] at hcontra
      simp at hcontra
  · simp only [set_attn_processor_dict]
    rw [if_neg (by simp)]
    have hroute := route_top f children []
    rw [List.append_nil] at hroute
    rw [hroute]

def childrenW : PChildren := .cons "blocks" (.mk true 3 .nil) .nil

theorem sana_set_attn_processor_dict_correct_witness :
    (([] : List (String × Nat)).length ≠ (attn_processors childrenW).length) ∧
    set_attn_processor_dict childrenW [] = .error valueErrorMsg := by
  have h := (sana_set_attn_processor_dict_correct childrenW [] (fun _ => 5)).1
  exact ⟨by decide, h (by decide)⟩

/-! ## Claim C5: forward restores the spatial grid -/

theorem sana_block_step_fix (b hp wp dim : Nat) :
    sana_block_step true hp wp (Except.ok [b, hp * wp, dim])
      = Except.ok [b, hp * wp, dim] := by
  simp [sana_block_step, blockForwardShape]

theorem foldl_block_step_fix (hp wp b dim : Nat) : ∀ k,
    (List.range k).foldl (fun acc _ => sana_block_step true hp wp acc)
        (Except.ok [b, hp * wp, dim]) = Except.ok [b, hp * wp, dim] := by
  intro k
  induction k with
  | zero => rfl
  | succ n ih =>
    rw [List.range_succ, List.foldl_append, ih]
    simpa using sana_block_step_fix b hp wp dim

/-- C5: for every input latent `[batch, in_channels, height, width]` whose
height and width are exactly divisible by `patch_size` (and a functioning
configuration: cross-attention present — see C1 — and positive batch and
extents), `SanaTransformer2DModel.forward` returns a tensor of shape
`[batch, out_channels, height, width]`: the unpatchify
reshape-permute-reshape of the output stage exactly restores the input's
height-by-width spatial grid. -/
theorem sana_forward_output_shape (c : SanaConfig) (b ch height width encSeq : Nat)
    (hcross : sana_has_cross c = true)
    (hch : ch = c.in_channels)
    (hps : 0 < c.patch_size)
    (hb : 0 < b) (hh : 0 < height) (hw : 0 < width)
    (hdh : c.patch_size ∣ height) (hdw : c.patch_size ∣ width) :
    forwardShape c b ch height width encSeq
      = .ok [b, resolved_out_channels c, height, width] := by
  subst hch
  have hp0 : c.patch_size ≠ 0 := Nat.pos_iff_ne_zero.mp hps
  have hdvd : c.patch_size ∣ height ∧ c.patch_size ∣ width := ⟨hdh, hdw⟩
  simp only [forwardShape, hcross, hdvd, and_self, not_true_eq_false, if_false, hp0]
  rw [foldl_block_step_fix]
  set p := c.patch_size with hpdef
  set hp := height / p with hhpdef
  set wp := width / p with hwpdef
  set oc := resolved_out_channels c with hocdef
  set d := sana_inner_dim c with hddef
  have hhp : 0 < hp := Nat.div_pos (Nat.le_of_dvd hh hdh) hps
  have hwp : 0 < wp := Nat.div_pos (Nat.le_of_dvd hw hdw) hps
  have hpm : hp * p = height := Nat.div_mul_cancel hdh
  have hwm : wp * p = width := Nat.div_mul_cancel hdw
  have hk1 : 0 < b * hp * wp * p * p :=
    Nat.mul_pos (Nat.mul_pos (Nat.mul_pos (Nat.mul_pos hb hhp) hwp) hps) hps
  have hk2 : 0 < b * (hp * p) * (wp * p) :=
    Nat.mul_pos (Nat.mul_pos hb (Nat.mul_pos hhp hps)) (Nat.mul_pos hwp hps)
  have he1 : b * (hp * wp) * proj_out_features c = b * hp * wp * p * p * oc := by
    simp only [proj_out_features, ← hocdef, ← hpdef]
    ring
  have hd1 : b * hp * wp * p * p ∣ b * (hp * wp) * proj_out_features c := ⟨oc, he1⟩
  have hq1 : b * (hp * wp) * proj_out_features c / (b * hp * wp * p * p) = oc := by
    rw [he1]
    exact Nat.mul_div_cancel_left oc hk1
  have he2 : b * oc * hp * p * wp * p = b * (hp * p) * (wp * p) * oc := by ring
  have hd2 : b * (hp * p) * (wp * p) ∣ b * oc * hp * p * wp * p := ⟨oc, he2⟩
  have hq2 : b * oc * hp * p * wp * p / (b * (hp * p) * (wp * p)) = oc := by
    rw [he2]
    exact Nat.mul_div_cancel_left oc hk2
  rw [if_neg (by simp)]
  dsimp only
  rw [if_neg (by simp)]
  rw [if_neg (Nat.pos_iff_ne_zero.mp hk1)]
  rw [if_neg (not_not_intro hd1)]
  rw [hq1]
  rw [if_neg (Nat.pos_iff_ne_zero.mp hk2)]
  rw [if_neg (not_not_intro hd2)]
  rw [hq2]
  rw [hpm, hwm]

def cfgSmall : SanaConfig :=
  { in_channels := 3, out_channels := some 5, num_attention_heads := 2,
    attention_head_dim := 2, num_layers := 2, cross_attention_dim := some 4,
    caption_channels := 7, patch_size := 2 }

theorem sana_forward_output_shape_witness :
    sana_has_cross cfgSmall = true ∧ 0 < cfgSmall.patch_size ∧
    cfgSmall.patch_size ∣ 4 ∧ cfgSmall.patch_size ∣ 6 ∧
    forwardShape cfgSmall 1 3 4 6 3 = .ok [1, 5, 4, 6] := by
  refine ⟨rfl, by decide, by decide, by decide, ?_⟩
  have h := sana_forward_output_shape cfgSmall 1 3 4 6 3 rfl rfl (by decide)
      (by decide) (by decide) (by decide) (by decide) (by decide)
  exact h
